import Mathlib

/-!
# Verification of the modbus client framing/transport layer

Shallow embedding of the Go sources (`tcp_client.go`, `en_custom_client.go`,
`tcp.go`, `serial.go`, and the RTU-over-TCP transporter file) as Lean
definitions, followed by theorems settling the specification claims.

Bytes are modelled as `Nat` values; every point where the Go code narrows a
value to a byte (`byte(x)`, `uint16` truncation, writing into a `[]byte`)
takes `% 256` / `% 65536` explicitly.  Fallible Go functions returning
`(value, err)` become `GoResult`, whose `panics` constructor records an
out-of-range slice or index access (a Go runtime panic).
-/

/-- Outcome of a Go function returning `(value, err)`: `ok` for a nil error,
`err` for a non-nil error, `panics` for a runtime panic (out-of-range index
or slice). -/
inductive GoResult (α : Type) where
  | ok (a : α)
  | err
  | panics
deriving DecidableEq, Repr

/-- True exactly when the result is `ok`. -/
def GoResult.isOk {α : Type} : GoResult α → Bool
  | .ok _ => true
  | _ => false

/-- `ProtocolDataUnit` from the Go sources: function code plus data payload. -/
structure ProtocolDataUnit where
  FunctionCode : Nat
  Data : List Nat
deriving DecidableEq, Repr

/-- Big-endian 16-bit read at offset `i`, as `binary.BigEndian.Uint16(b[i:])`:
high byte times 256 plus low byte.  Entries are reduced mod 256 since Go's
`[]byte` elements are bytes. -/
def beUint16 (b : List Nat) (i : Nat) : Nat :=
  (b.getD i 0 % 256) * 256 + b.getD (i + 1) 0 % 256

/-- Big-endian 16-bit write, as `binary.BigEndian.PutUint16`: the two bytes
of `v % 65536`, high byte first. -/
def u16be (v : Nat) : List Nat :=
  [v / 256 % 256, v % 256]

/-- `tcpProtocolIdentifier` constant from `tcp_client.go`. -/
def tcpProtocolIdentifier : Nat := 0x0000

/-- `tcpHeaderSize` constant from `tcp_client.go`. -/
def tcpHeaderSize : Nat := 7

/-- `tcpMaxLength` constant from `tcp_client.go`. -/
def tcpMaxLength : Nat := 260

/-- Modelled from the spec: `rtuMinSize`, referenced by the serial framings
but defined in a repository file not included here; the spec fixes the
minimum valid serial frame as unit id + function + 2-byte checksum. -/
def rtuMinSize : Nat := 4

/-- Modelled from the spec: `rtuMaxSize`, referenced by the serial framings
but defined in a repository file not included here; the spec's framing table
gives 256 bytes as the maximum serial frame. -/
def rtuMaxSize : Nat := 256

/-- Modelled from the spec: the standard Modbus function-code constant for
read coils, referenced by `enRtuPackager.Decode` but defined elsewhere in
the repository. -/
def FuncCodeReadCoils : Nat := 1

/-- Modelled from the spec: the standard Modbus function-code constant for
read holding registers (the spec's end-to-end scenario uses `0x03`). -/
def FuncCodeReadHoldingRegisters : Nat := 3

/-- Modelled from the spec: the standard Modbus function-code constant for
read input registers. -/
def FuncCodeReadInputRegisters : Nat := 4

/-- Modelled from the spec: the standard Modbus function-code constant for
write single register. -/
def FuncCodeWriteSingleRegister : Nat := 6

/-- Modelled from the spec: the standard Modbus function-code constant for
write multiple registers. -/
def FuncCodeWriteMultipleRegisters : Nat := 16

/-- Modelled from the spec: one shift round of the checksum engine (the
`crc` type is defined in a repository file not included here; the spec
specifies the standard Modbus CRC-16): if the low bit is set, shift right
and XOR with 0xA001, else shift right. -/
def crcShift (v : Nat) : Nat :=
  if v % 2 = 1 then (v / 2) ^^^ 0xA001 else v / 2

/-- Modelled from the spec: pushing one byte into the checksum register —
XOR the byte into the low byte of the register, then 8 shift rounds. -/
def crcPushByte (reg b : Nat) : Nat :=
  crcShift^[8] (reg ^^^ (b % 256))

/-- Modelled from the spec: the full checksum of a byte sequence — register
initialised to 0xFFFF, each byte pushed in order (`reset().pushBytes(...).value()`). -/
def crcValue (bs : List Nat) : Nat :=
  bs.foldl crcPushByte 0xFFFF

/-- `tcpPackager.Encode` from `tcp_client.go`.  The packager state is the
`transactionId` counter (a `uint32`); `Encode` atomically increments it and
builds the frame `[transactionId:2][protocolId:2][length:2][unitId:1]
[functionCode:1][data]`.  Returns the new counter together with the
`(adu, err)` result; the function has no error path. -/
def tcpPackager.Encode (transactionId slaveId : Nat) (pdu : ProtocolDataUnit) :
    Nat × GoResult (List Nat) :=
  let tid := (transactionId + 1) % 2 ^ 32
  let adu :=
    u16be tid ++
    u16be tcpProtocolIdentifier ++
    u16be (1 + 1 + pdu.Data.length) ++
    [slaveId % 256] ++
    [pdu.FunctionCode % 256] ++
    pdu.Data.map (fun b => b % 256)
  (tid, .ok adu)

/-- `tcpPackager.Verify` from `tcp_client.go`: compares the 2-byte
transaction id, the 2-byte protocol id, and the unit id byte (index 6) of
response and request, in that order; mismatches return an error.  Reads out
of range panic, mirroring `binary.BigEndian.Uint16` and indexing on short
slices. -/
def tcpPackager.Verify (aduRequest aduResponse : List Nat) : GoResult Unit :=
  if aduResponse.length < 2 then .panics
  else if aduRequest.length < 2 then .panics
  else if beUint16 aduResponse 0 ≠ beUint16 aduRequest 0 then .err
  else if aduResponse.length < 4 then .panics
  else if aduRequest.length < 4 then .panics
  else if beUint16 aduResponse 2 ≠ beUint16 aduRequest 2 then .err
  else if aduResponse.length < 7 then .panics
  else if aduRequest.length < 7 then .panics
  else if aduResponse.getD 6 0 ≠ aduRequest.getD 6 0 then .err
  else .ok ()

/-- `tcpPackager.Decode` from `tcp_client.go`: reads the declared length at
offset 4, computes `pduLength = len(adu) - tcpHeaderSize` as a Go `int`,
rejects when `pduLength <= 0` or `pduLength != int(length-1)` (the `- 1` is
`uint16` arithmetic, hence `+ 65535 mod 65536`), else returns the function
code at offset 7 and the remaining bytes as data.  Reading the length field
of a frame shorter than 6 bytes panics. -/
def tcpPackager.Decode (adu : List Nat) : GoResult ProtocolDataUnit :=
  if adu.length < 6 then .panics
  else
    let length := beUint16 adu 4
    let pduLength : Int := (adu.length : Int) - (tcpHeaderSize : Int)
    if pduLength ≤ 0 ∨ pduLength ≠ ((length + 65535) % 65536 : Nat) then .err
    else .ok ⟨adu.getD tcpHeaderSize 0, adu.drop (tcpHeaderSize + 1)⟩

/-- `removeElement` from `en_custom_client.go`: swap-remove — overwrite
`slice[i]` with the last element, then drop the last slot.  `slice[i]` with
`i` out of range panics (this also covers the empty slice, where
`slice[len-1]` would panic). -/
def removeElement (slice : List Nat) (i : Nat) : GoResult (List Nat) :=
  if i < slice.length then
    .ok ((slice.set i (slice.getD (slice.length - 1) 0)).dropLast)
  else .panics

/-- `enRtuPackager.Encode` from `en_custom_client.go`: frame
`[slaveId][functionCode][data][crcLow][crcHigh]`, rejected when
`len(data)+4 > rtuMaxSize`; the checksum is computed over the first
`length-2` bytes and appended low byte first. -/
def enRtuPackager.Encode (slaveId : Nat) (pdu : ProtocolDataUnit) :
    GoResult (List Nat) :=
  let length := pdu.Data.length + 4
  if length > rtuMaxSize then .err
  else
    let body := [slaveId % 256, pdu.FunctionCode % 256] ++
      pdu.Data.map (fun b => b % 256)
    let checksum := crcValue body
    .ok (body ++ [checksum % 256, checksum / 256 % 256])

/-- `enRtuPackager.Verify` from `en_custom_client.go`: rejects responses
shorter than `rtuMinSize` with a size error, then compares the slave
address bytes (indexing an empty request would panic). -/
def enRtuPackager.Verify (aduRequest aduResponse : List Nat) : GoResult Unit :=
  if aduResponse.length < rtuMinSize then .err
  else if aduRequest.length < 1 then .panics
  else if aduResponse.getD 0 0 ≠ aduRequest.getD 0 0 then .err
  else .ok ()

/-- The `switch pdu.FunctionCode` statement of `enRtuPackager.Decode`:
swap-remove the data byte at index 1 for the three read-style function
codes, at index 2 for write-single-register, at index 4 for
write-multiple-registers; any other function code is an error. -/
def enRtuPackager.strip (functionCode : Nat) (data : List Nat) :
    GoResult (List Nat) :=
  if functionCode = FuncCodeReadCoils ∨
      functionCode = FuncCodeReadInputRegisters ∨
      functionCode = FuncCodeReadHoldingRegisters then
    removeElement data 1
  else if functionCode = FuncCodeWriteSingleRegister then
    removeElement data 2
  else if functionCode = FuncCodeWriteMultipleRegisters then
    removeElement data 4
  else .err

/-- `enRtuPackager.Decode` from `en_custom_client.go`: checks the trailing
checksum against the CRC of `adu[0:length-2]`, extracts the function code
(`adu[1]`) and data (`adu[2:length-2]`), then applies the function-code
switch (`strip`).  Slicing `adu[0:length-2]` panics for frames shorter
than 2 bytes, and `adu[2:length-2]` panics for frames of length 2 or 3. -/
def enRtuPackager.Decode (adu : List Nat) : GoResult ProtocolDataUnit :=
  if adu.length < 2 then .panics
  else if
      (adu.getD (adu.length - 1) 0 % 256) * 256 + adu.getD (adu.length - 2) 0 % 256
        ≠ crcValue (adu.take (adu.length - 2)) then .err
  else if adu.length < 4 then .panics
  else
    match enRtuPackager.strip (adu.getD 1 0) ((adu.drop 2).take (adu.length - 4)) with
    | .ok d => .ok ⟨adu.getD 1 0, d⟩
    | .err => .err
    | .panics => .panics

/-- `rtuOverTcpTransporter.calculateDelay` from the RTU-over-TCP transporter
file, in microseconds: fixed 750/1750 when the baud rate is non-positive or
above 19200, else `15000000/baudRate` per character and `35000000/baudRate`
per frame (Go integer division, both operands positive in that branch). -/
def rtuOverTcpTransporter.calculateDelay (baudRate : Int) (chars : Nat) : Nat :=
  if baudRate ≤ 0 ∨ baudRate > 19200 then 750 * chars + 1750
  else (15000000 / baudRate.toNat) * chars + 35000000 / baudRate.toNat

/-- `SerialPort.closeIdle` from `serial.go`, as a function of the
configuration, the time the callback runs, the last recorded activity time
and the connection handle: a non-positive idle timeout returns immediately;
otherwise the handle is closed exactly when `now - lastActivity ≥
idleTimeout` (times as `time.Duration` integers). -/
def SerialPort.closeIdle (idleTimeout now lastActivity : Int)
    (conn : Option Unit) : Option Unit :=
  if idleTimeout ≤ 0 then conn
  else if idleTimeout ≤ now - lastActivity then none
  else conn

/-- `TcpTransporter.closeIdle` from `tcp.go`: same guard as
`SerialPort.closeIdle`, over the TCP connection handle. -/
def TcpTransporter.closeIdle (idleTimeout now lastActivity : Int)
    (conn : Option Unit) : Option Unit :=
  if idleTimeout ≤ 0 then conn
  else if idleTimeout ≤ now - lastActivity then none
  else conn

/-- The frame carried by an `ok` result, or `[]` otherwise. -/
def goFrame : GoResult (List Nat) → List Nat
  | .ok l => l
  | _ => []

/-- The `transactionId` counter of one `tcpPackager` after `n` successive
`Encode` calls, starting from counter value `t0`, where the `n`-th call
encodes the slave id and message given by `calls n`. -/
def tcpEncodeCounter (calls : Nat → Nat × ProtocolDataUnit) (t0 : Nat) :
    Nat → Nat
  | 0 => t0
  | n + 1 =>
    (tcpPackager.Encode (tcpEncodeCounter calls t0 n) (calls n).1 (calls n).2).1

/-- The 16-bit transaction id emitted in the frame of the `(n+1)`-th
`Encode` call of the trace `calls`, read back from the first two frame
bytes. -/
def tcpEmittedId (calls : Nat → Nat × ProtocolDataUnit) (t0 n : Nat) : Nat :=
  beUint16
    (goFrame (tcpPackager.Encode (tcpEncodeCounter calls t0 n)
      (calls n).1 (calls n).2).2) 0

/-- A successful swap-remove shortens the slice by exactly one element. -/
theorem removeElement_ok_length (s : List Nat) (i : Nat) (d : List Nat)
    (h : removeElement s i = .ok d) : d.length + 1 = s.length := by
  unfold removeElement at h
  split at h
  · rename_i hi
    cases h
    simp [List.length_dropLast, List.length_set]
    omega
  · cases h

/-- A successful function-code switch shortens the data by exactly one
byte, whichever branch is taken. -/
theorem strip_ok_length (fc : Nat) (data d : List Nat)
    (h : enRtuPackager.strip fc data = .ok d) : d.length + 1 = data.length := by
  unfold enRtuPackager.strip at h
  split_ifs at h
  · exact removeElement_ok_length data 1 d h
  · exact removeElement_ok_length data 2 d h
  · exact removeElement_ok_length data 4 d h

/-- C7: for any message whose data fits the serial maximum, `Encode`
produces exactly `[unitId, functionCode, data..., crcLow, crcHigh]`, the
checksum being computed over the first `len(data) + 2` bytes and appended
low byte first. -/
theorem enRtu_encode_frame_layout (slaveId fc : Nat) (data : List Nat)
    (h : data.length + 4 ≤ rtuMaxSize) :
    enRtuPackager.Encode slaveId ⟨fc, data⟩ =
      .ok (([slaveId % 256, fc % 256] ++ data.map (fun b => b % 256)) ++
        [crcValue ([slaveId % 256, fc % 256] ++ data.map (fun b => b % 256)) % 256,
         crcValue ([slaveId % 256, fc % 256] ++ data.map (fun b => b % 256)) / 256 % 256]) := by
  have h' : ¬ (data.length + 4 > rtuMaxSize) := by omega
  simp [enRtuPackager.Encode, h']

set_option maxRecDepth 10000 in
/-- C7 witness: the spec's end-to-end scenario — unit id 1, function 0x03,
data `00 00 00 02` encodes to the 8-byte frame `01 03 00 00 00 02 C4 0B`
(checksum 0x0BC4 over the first 6 bytes, low byte 0xC4 = 196 first). -/
theorem enRtu_encode_frame_layout_witness :
    enRtuPackager.Encode 1 ⟨3, [0, 0, 0, 2]⟩ = .ok [1, 3, 0, 0, 0, 2, 196, 11] := by
  rw [enRtu_encode_frame_layout 1 3 [0, 0, 0, 2] (by decide)]
  decide

set_option maxRecDepth 10000 in
/-- C4 counterexample: TCP `Encode` performs no size check — a message with
300 data bytes encodes successfully into a 308-byte frame, which exceeds
`tcpMaxLength = 260`, contradicting the claim that TCP Encode fails for any
message whose frame would exceed 260 bytes. -/
theorem tcp_encode_never_checks_size :
    ((tcpPackager.Encode 0 0 ⟨3, List.replicate 300 0⟩).2).isOk = true ∧
    (goFrame (tcpPackager.Encode 0 0 ⟨3, List.replicate 300 0⟩).2).length = 308 ∧
    tcpMaxLength < 308 := by decide

/-- C4 amended: serial `Encode` returns an error exactly when the frame
`len(data) + 4` would exceed `rtuMaxSize = 256`; TCP `Encode` performs no
size check and succeeds for every message. -/
theorem encode_size_check (transactionId slaveId slaveId' : Nat)
    (pdu pdu' : ProtocolDataUnit) :
    ((enRtuPackager.Encode slaveId pdu).isOk = true ↔
      pdu.Data.length + 4 ≤ rtuMaxSize) ∧
    ((tcpPackager.Encode transactionId slaveId' pdu').2).isOk = true := by
  constructor
  · by_cases hc : pdu.Data.length + 4 > rtuMaxSize
    · simp [enRtuPackager.Encode, hc, GoResult.isOk]
    · simp [enRtuPackager.Encode, hc, GoResult.isOk]
      omega
  · simp [tcpPackager.Encode, GoResult.isOk]

/-- C4 amended witness: a 4-byte-data message encodes under the serial
framing, and TCP `Encode` succeeds on a sample message. -/
theorem encode_size_check_witness :
    (enRtuPackager.Encode 1 ⟨3, [0, 0, 0, 2]⟩).isOk = true ∧
    ((tcpPackager.Encode 0 0 ⟨3, []⟩).2).isOk = true :=
  ⟨(encode_size_check 0 1 0 ⟨3, [0, 0, 0, 2]⟩ ⟨3, []⟩).1.mpr (by decide),
   (encode_size_check 0 1 0 ⟨3, [0, 0, 0, 2]⟩ ⟨3, []⟩).2⟩

/-- C8: `calculateDelay` returns `(15000000 / baudRate) * chars +
35000000 / baudRate` microseconds (Go integer division) for baud rates in
`(0, 19200]`, and `750 * chars + 1750` microseconds otherwise. -/
theorem calculateDelay_spec (baudRate : Int) (chars : Nat) :
    (0 < baudRate → baudRate ≤ 19200 →
      rtuOverTcpTransporter.calculateDelay baudRate chars =
        (15000000 / baudRate.toNat) * chars + 35000000 / baudRate.toNat) ∧
    (baudRate ≤ 0 ∨ 19200 < baudRate →
      rtuOverTcpTransporter.calculateDelay baudRate chars =
        750 * chars + 1750) := by
  constructor
  · intro h1 h2
    unfold rtuOverTcpTransporter.calculateDelay
    rw [if_neg (by omega)]
  · intro h
    unfold rtuOverTcpTransporter.calculateDelay
    rw [if_pos (by omega)]

/-- C8 witness: at baud 9600 for 8 bytes the delay is
`(15000000/9600)*8 + 35000000/9600 = 1562*8 + 3645 = 16141` microseconds;
at baud 0 it is `750*8 + 1750`. -/
theorem calculateDelay_spec_witness :
    rtuOverTcpTransporter.calculateDelay 9600 8 =
      (15000000 / (9600 : Int).toNat) * 8 + 35000000 / (9600 : Int).toNat ∧
    rtuOverTcpTransporter.calculateDelay 9600 8 = 16141 ∧
    rtuOverTcpTransporter.calculateDelay 0 8 = 750 * 8 + 1750 :=
  ⟨(calculateDelay_spec 9600 8).1 (by norm_num) (by norm_num),
   by decide,
   (calculateDelay_spec 0 8).2 (Or.inl (by norm_num))⟩

/-- C9: both idle-timeout callbacks close the connection only when the
elapsed time since the last recorded activity, computed when the callback
runs, is at least the (positive) idle timeout; if the last activity is more
recent than the idle timeout, the callback leaves the connection untouched,
so a stale timer firing after activity rearmed it never closes the
connection. -/
theorem closeIdle_guard (idleTimeout now lastActivity : Int)
    (conn : Option Unit) :
    (SerialPort.closeIdle idleTimeout now lastActivity conn ≠ conn →
      0 < idleTimeout ∧ idleTimeout ≤ now - lastActivity) ∧
    (now - lastActivity < idleTimeout →
      SerialPort.closeIdle idleTimeout now lastActivity conn = conn) ∧
    (TcpTransporter.closeIdle idleTimeout now lastActivity conn ≠ conn →
      0 < idleTimeout ∧ idleTimeout ≤ now - lastActivity) ∧
    (now - lastActivity < idleTimeout →
      TcpTransporter.closeIdle idleTimeout now lastActivity conn = conn) := by
  refine ⟨?_, ?_, ?_, ?_⟩
  · intro h
    unfold SerialPort.closeIdle at h
    split_ifs at h with h1 h2
    · exact absurd rfl h
    · exact ⟨by omega, h2⟩
    · exact absurd rfl h
  · intro h
    unfold SerialPort.closeIdle
    split_ifs with h1 h2
    · rfl
    · exact absurd h2 (by omega)
    · rfl
  · intro h
    unfold TcpTransporter.closeIdle at h
    split_ifs at h with h1 h2
    · exact absurd rfl h
    · exact ⟨by omega, h2⟩
    · exact absurd rfl h
  · intro h
    unfold TcpTransporter.closeIdle
    split_ifs with h1 h2
    · rfl
    · exact absurd h2 (by omega)
    · rfl

/-- C9 witness: with idle timeout 10 and activity 5 time units ago, neither
callback closes the connection. -/
theorem closeIdle_guard_witness :
    SerialPort.closeIdle 10 100 95 (some ()) = some () ∧
    TcpTransporter.closeIdle 10 100 95 (some ()) = some () :=
  ⟨(closeIdle_guard 10 100 95 (some ())).2.1 (by norm_num),
   (closeIdle_guard 10 100 95 (some ())).2.2.2 (by norm_num)⟩

set_option maxRecDepth 10000 in
/-- C2 counterexample: decoding a valid-checksum write-multiple-registers
response whose data field is the 5 bytes `[1,2,3,4,5]` returns a 4-byte
payload (`[1,2,3,4]`, the byte at index 4 swap-removed), not the 1-byte
payload the claim's `N = 4` stripping would give: the payload is 1 byte
shorter than the frame's data field, never `N` bytes shorter. -/
theorem enRtu_decode_write_multiple_keeps_payload :
    enRtuPackager.Decode [1, 16, 1, 2, 3, 4, 5, 7, 235] = .ok ⟨16, [1, 2, 3, 4]⟩ ∧
    ([1, 2, 3, 4] : List Nat).length ≠ ([1, 2, 3, 4, 5] : List Nat).length - 4 := by
  decide

/-- C2 amended: for every response frame accepted by the vendor `Decode`,
the returned payload is exactly one byte shorter than the frame's data
field (the function code selects only the swap-remove index — 1 for the
read-style functions, 2 for write-single-register, 4 for
write-multiple-registers — not the number of bytes removed); and for every
frame with a valid checksum whose function code is outside those five,
`Decode` returns an error. -/
theorem enRtu_decode_strips_one_byte (adu : List Nat) (pdu : ProtocolDataUnit)
    (fc : Nat) :
    (enRtuPackager.Decode adu = .ok pdu → pdu.Data.length + 5 = adu.length) ∧
    (4 ≤ adu.length →
      (adu.getD (adu.length - 1) 0 % 256) * 256 + adu.getD (adu.length - 2) 0 % 256 =
        crcValue (adu.take (adu.length - 2)) →
      adu.getD 1 0 = fc →
      fc ≠ FuncCodeReadCoils → fc ≠ FuncCodeReadInputRegisters →
      fc ≠ FuncCodeReadHoldingRegisters → fc ≠ FuncCodeWriteSingleRegister →
      fc ≠ FuncCodeWriteMultipleRegisters →
      enRtuPackager.Decode adu = .err) := by
  constructor
  · intro h
    unfold enRtuPackager.Decode at h
    split_ifs at h with h1 h2 h3
    cases hst : enRtuPackager.strip (adu.getD 1 0)
        ((adu.drop 2).take (adu.length - 4)) with
    | ok d =>
      rw [hst] at h
      simp only [GoResult.ok.injEq] at h
      have hd := strip_ok_length _ _ _ hst
      have hdl : ((adu.drop 2).take (adu.length - 4)).length = adu.length - 4 := by
        simp [List.length_take, List.length_drop]
        omega
      rw [← h]
      simp only []
      omega
    | err =>
      rw [hst] at h
      cases h
    | panics =>
      rw [hst] at h
      cases h
  · intro hlen hcrc hfc hne1 hne2 hne3 hne4 hne5
    unfold enRtuPackager.Decode
    rw [if_neg (by omega), if_neg (not_ne_iff.mpr hcrc), if_neg (by omega), hfc]
    unfold enRtuPackager.strip
    rw [if_neg (by push_neg; exact ⟨hne1, hne2, hne3⟩), if_neg hne4, if_neg hne5]

set_option maxRecDepth 10000 in
/-- C2 amended witness: the write-multiple frame above decodes to a 4-byte
payload satisfying `length + 5 = frame length`, and the valid-checksum frame
`[1, 0, 0, 32]` with unrecognized function code 0 is a decode error. -/
theorem enRtu_decode_strips_one_byte_witness :
    (⟨16, [1, 2, 3, 4]⟩ : ProtocolDataUnit).Data.length + 5 =
      ([1, 16, 1, 2, 3, 4, 5, 7, 235] : List Nat).length ∧
    enRtuPackager.Decode [1, 0, 0, 32] = .err :=
  ⟨(enRtu_decode_strips_one_byte [1, 16, 1, 2, 3, 4, 5, 7, 235]
      ⟨16, [1, 2, 3, 4]⟩ 0).1 (by decide),
   (enRtu_decode_strips_one_byte [1, 0, 0, 32] ⟨0, []⟩ 0).2 (by decide) (by decide)
     (by decide) (by decide) (by decide) (by decide) (by decide) (by decide)⟩

/-- C3 counterexample: the 1-byte frame `[0]` is shorter than the serial
minimum `rtuMinSize = 4`, yet the vendor `Decode` panics on the
out-of-range slice `adu[0 : length-2]` instead of returning a size
error. -/
theorem enRtu_decode_short_frame_panics :
    enRtuPackager.Decode [0] = .panics ∧
    ([0] : List Nat).length < rtuMinSize ∧
    (GoResult.panics : GoResult ProtocolDataUnit) ≠ .err := by
  decide

/-- C3 amended: neither `Decode` checks a minimum frame size up front — the
vendor serial `Decode` panics on every frame shorter than 2 bytes, and the
TCP `Decode` panics on every frame shorter than 6 bytes; the serial
minimum-size rejection (`rtuMinSize = 4`, with an error and no panic) is
performed by `Verify`, not `Decode`. -/
theorem decode_no_min_size_check (adu req resp : List Nat) :
    (adu.length < 2 → enRtuPackager.Decode adu = .panics) ∧
    (adu.length < 6 → tcpPackager.Decode adu = .panics) ∧
    (resp.length < rtuMinSize → enRtuPackager.Verify req resp = .err) := by
  refine ⟨?_, ?_, ?_⟩
  · intro h
    unfold enRtuPackager.Decode
    rw [if_pos h]
  · intro h
    unfold tcpPackager.Decode
    rw [if_pos h]
  · intro h
    unfold enRtuPackager.Verify
    rw [if_pos h]

/-- C3 amended witness: the 1-byte frame `[0]` makes the vendor `Decode`
panic, makes the TCP `Decode` panic, and is rejected by the serial `Verify`
with an error. -/
theorem decode_no_min_size_check_witness :
    enRtuPackager.Decode [0] = .panics ∧
    tcpPackager.Decode [0] = .panics ∧
    enRtuPackager.Verify [] [0] = .err :=
  ⟨(decode_no_min_size_check [0] [] [0]).1 (by decide),
   (decode_no_min_size_check [0] [] [0]).2.1 (by decide),
   (decode_no_min_size_check [0] [] [0]).2.2 (by decide)⟩

/-- The `transactionId` counter after `n` `Encode` calls is congruent to
`t0 + n` modulo 2^32 (the counter is a `uint32` incremented by 1 per
call). -/
theorem tcpEncodeCounter_modEq (calls : Nat → Nat × ProtocolDataUnit)
    (t0 n : Nat) : tcpEncodeCounter calls t0 n ≡ t0 + n [MOD 2 ^ 32] := by
  induction n with
  | zero => rfl
  | succ n ih =>
    have hstep : tcpEncodeCounter calls t0 (n + 1) =
        (tcpEncodeCounter calls t0 n + 1) % 2 ^ 32 := rfl
    rw [hstep]
    have h := (Nat.mod_modEq (tcpEncodeCounter calls t0 n + 1) (2 ^ 32)).trans
      (ih.add_right 1)
    simpa [Nat.add_assoc] using h

/-- The transaction id emitted in the `(n+1)`-th frame is
`(t0 + n + 1) mod 2^16`. -/
theorem tcpEmittedId_eq (calls : Nat → Nat × ProtocolDataUnit) (t0 n : Nat) :
    tcpEmittedId calls t0 n = (t0 + n + 1) % 2 ^ 16 := by
  have hx : (tcpEncodeCounter calls t0 n + 1) % 2 ^ 32 = (t0 + n + 1) % 2 ^ 32 :=
    (tcpEncodeCounter_modEq calls t0 n).add_right 1
  show ((tcpEncodeCounter calls t0 n + 1) % 2 ^ 32 / 256 % 256 % 256) * 256 +
      (tcpEncodeCounter calls t0 n + 1) % 2 ^ 32 % 256 % 256 = (t0 + n + 1) % 2 ^ 16
  rw [hx]
  omega

/-- C5: along any sequence of successive `Encode` calls on one TCP packager
(whatever messages and slave ids are encoded), each emitted 16-bit
transaction id is the previous one plus one modulo 65536, and within any
window of fewer than 65536 calls no id repeats. -/
theorem tcp_transaction_ids_strictly_increasing
    (calls : Nat → Nat × ProtocolDataUnit) (t0 : Nat) :
    (∀ n, tcpEmittedId calls t0 (n + 1) =
      (tcpEmittedId calls t0 n + 1) % 2 ^ 16) ∧
    (∀ i j, i < j → j < i + 2 ^ 16 →
      tcpEmittedId calls t0 i ≠ tcpEmittedId calls t0 j) := by
  constructor
  · intro n
    rw [tcpEmittedId_eq, tcpEmittedId_eq]
    omega
  · intro i j hij hlt heq
    rw [tcpEmittedId_eq, tcpEmittedId_eq] at heq
    omega

/-- C5 witness: starting from counter 5, the second emitted id is the first
plus one mod 65536, and the two ids differ. -/
theorem tcp_transaction_ids_witness :
    tcpEmittedId (fun _ => (0, ⟨0, []⟩)) 5 1 =
      (tcpEmittedId (fun _ => (0, ⟨0, []⟩)) 5 0 + 1) % 2 ^ 16 ∧
    tcpEmittedId (fun _ => (0, ⟨0, []⟩)) 5 0 ≠
      tcpEmittedId (fun _ => (0, ⟨0, []⟩)) 5 1 :=
  ⟨(tcp_transaction_ids_strictly_increasing (fun _ => (0, ⟨0, []⟩)) 5).1 0,
   (tcp_transaction_ids_strictly_increasing (fun _ => (0, ⟨0, []⟩)) 5).2 0 1
     (by norm_num) (by norm_num)⟩

/-- C6: for every frame of at least the 7-byte header, TCP `Decode` errors
exactly when the frame has no bytes after the header or the number of bytes
after the header differs from the declared length minus one (computed in
`uint16` arithmetic), and otherwise returns the byte after the header as
function code and the remaining bytes as data. -/
theorem tcp_decode_characterisation (adu : List Nat) (h : 7 ≤ adu.length) :
    tcpPackager.Decode adu =
      if adu.length = 7 ∨ adu.length - 7 ≠ (beUint16 adu 4 + 65535) % 65536 then
        GoResult.err
      else .ok ⟨adu.getD 7 0, adu.drop 8⟩ := by
  simp only [tcpPackager.Decode, tcpHeaderSize]
  rw [if_neg (show ¬ adu.length < 6 by omega)]
  split_ifs with h1 h2
  · rfl
  · exfalso; omega
  · exfalso; omega
  · rfl

/-- C6 witness: the 9-byte frame with declared length 3 decodes to function
code 3 with data `[99]`. -/
theorem tcp_decode_characterisation_witness :
    tcpPackager.Decode [0, 1, 0, 0, 0, 3, 17, 3, 99] = .ok ⟨3, [99]⟩ := by
  rw [tcp_decode_characterisation [0, 1, 0, 0, 0, 3, 17, 3, 99] (by decide)]
  decide

/-- C10: for request and response frames of at least 7 bytes, TCP `Verify`
succeeds exactly when the 2-byte transaction id, the 2-byte protocol id and
the unit id byte of the response equal those of the request — the length
field, function code, data and any other bytes are never inspected. -/
theorem tcp_verify_characterisation (aduRequest aduResponse : List Nat)
    (hreq : 7 ≤ aduRequest.length) (hresp : 7 ≤ aduResponse.length) :
    tcpPackager.Verify aduRequest aduResponse = .ok () ↔
      (beUint16 aduResponse 0 = beUint16 aduRequest 0 ∧
       beUint16 aduResponse 2 = beUint16 aduRequest 2 ∧
       aduResponse.getD 6 0 = aduRequest.getD 6 0) := by
  unfold tcpPackager.Verify
  rw [if_neg (show ¬ aduResponse.length < 2 by omega),
    if_neg (show ¬ aduRequest.length < 2 by omega),
    if_neg (show ¬ aduResponse.length < 4 by omega),
    if_neg (show ¬ aduRequest.length < 4 by omega),
    if_neg (show ¬ aduResponse.length < 7 by omega),
    if_neg (show ¬ aduRequest.length < 7 by omega)]
  split_ifs with h1 h2 h3 <;> simp_all

/-- C10 witness: two 7-byte frames agreeing on transaction id, protocol id
and unit id verify successfully even though their length-field bytes
differ. -/
theorem tcp_verify_characterisation_witness :
    tcpPackager.Verify [0, 1, 0, 0, 9, 9, 5] [0, 1, 0, 0, 7, 7, 5] = .ok () :=
  (tcp_verify_characterisation [0, 1, 0, 0, 9, 9, 5] [0, 1, 0, 0, 7, 7, 5]
    (by decide) (by decide)).mpr (by decide)
